import Mathlib

/-!
# BulkFoodHub — cart/checkout core, shallow embedding

This file embeds the cart store (`src/frontend/src/contexts/CartContext.tsx`),
the cart-item component handlers (`src/frontend/src/components/CartItem.tsx`)
and the checkout page logic (`src/frontend/src/pages/CheckoutPage.tsx`) of the
BulkFoodHub frontend, and proves the spec's claims about them.

Conventions of the embedding:
* JavaScript numbers are modelled as exact rationals (`ℚ`); product ids are
  integers (`Int`), as in the TypeScript types (`Product.id : number`).
* The reducer's dispatched `productId` payload is modelled by `JSValue`
  (a number or a string), because one call site (`CartItem.tsx`) passes the
  line item's string id where a numeric product id is expected; `jsStrictEq`
  models JavaScript strict equality `===` between a numeric `product.id`
  and such a payload (`number === string` is always `false`).
* Environment inputs (`Date.now()`, `new Date().toISOString()`, the network
  result of `createOrder`) are passed as explicit arguments.
* Only the record fields the embedded code reads are kept on `Product`.
-/

namespace BulkFoodHub

/-- Product record (from `types/index.ts`), restricted to the fields the
cart/checkout core reads. -/
structure Product where
  id : Int
  name : String
  price_per_unit : ℚ
  unit : String
  available_quantity : ℚ
  deriving Repr, DecidableEq

/-- A cart line item (from `types/index.ts` / `CartContext.tsx`). -/
structure CartItem where
  id : String
  product : Product
  quantity : ℚ
  unit_price : ℚ
  total_price : ℚ
  added_at : String
  deriving Repr, DecidableEq

/-- The cart store's state (`CartState` in `CartContext.tsx`). -/
structure CartState where
  items : List CartItem
  totalItems : ℚ
  totalPrice : ℚ
  deriving Repr, DecidableEq

/-- A dispatched `productId` payload value: at runtime it is either a number
(the intended product id) or a string (as passed by `CartItem.tsx`). -/
inductive JSValue where
  | num (n : Int)
  | str (s : String)
  deriving Repr, DecidableEq

/-- JavaScript strict equality `item.product.id === productId` between the
numeric `product.id` and a dispatched payload value: a number equals a number
with the same value; a number never strictly equals a string. -/
def jsStrictEq (n : Int) (v : JSValue) : Bool :=
  match v with
  | .num m => n == m
  | .str _ => false

/-- The `CartAction` variants of `CartContext.tsx`.  `ADD_ITEM` carries the
`Date.now()` timestamp used to build the new item's id and `added_at`. -/
inductive CartAction where
  | addItem (product : Product) (quantity : ℚ) (now : Nat)
  | removeItem (productId : JSValue)
  | updateQuantity (productId : JSValue) (quantity : ℚ)
  | clearCart
  deriving Repr

/-- `items.reduce((sum, item) => sum + g(item), 0)`. -/
def sumBy (g : CartItem → ℚ) (items : List CartItem) : ℚ :=
  items.foldl (fun sum item => sum + g item) 0

/-- `items.reduce((sum, item) => sum + item.quantity, 0)`. -/
def sumQuantities (items : List CartItem) : ℚ :=
  sumBy (fun item => item.quantity) items

/-- `items.reduce((sum, item) => sum + item.total_price, 0)`. -/
def sumTotalPrices (items : List CartItem) : ℚ :=
  sumBy (fun item => item.total_price) items

/-- The per-item update mapped over the items in the `ADD_ITEM` case when the
product already has a line item: quantity is added and the line total is
recomputed from the item's own (unchanged) `unit_price`. -/
def addItemUpdate (product : Product) (quantity : ℚ) (item : CartItem) : CartItem :=
  if item.product.id == product.id then
    { item with
      quantity := item.quantity + quantity
      total_price := (item.quantity + quantity) * item.unit_price }
  else item

/-- The per-item update mapped over the items in the `UPDATE_QUANTITY` case:
the quantity is replaced and the line total recomputed from the item's own
(unchanged) `unit_price`. -/
def updateQuantityUpdate (productId : JSValue) (quantity : ℚ) (item : CartItem) : CartItem :=
  if jsStrictEq item.product.id productId then
    { item with
      quantity := quantity
      total_price := quantity * item.unit_price }
  else item

/-- The fresh line item built by `ADD_ITEM` when the product is not yet in the
cart; `now` stands for the `Date.now()` timestamp taken at dispatch time. -/
def newCartItem (product : Product) (quantity : ℚ) (now : Nat) : CartItem :=
  { id := toString product.id ++ "-" ++ toString now
    product := product
    quantity := quantity
    unit_price := product.price_per_unit
    total_price := product.price_per_unit * quantity
    added_at := toString now }

/-- The `REMOVE_ITEM` case of `cartReducer`.  It is factored out because the
`UPDATE_QUANTITY` case re-enters the reducer with a `REMOVE_ITEM` action
(`return cartReducer(state, { type: 'REMOVE_ITEM', ... })`). -/
def removeItemCase (state : CartState) (productId : JSValue) : CartState :=
  match state.items.find? (fun item => jsStrictEq item.product.id productId) with
  | none => state
  | some itemToRemove =>
    let updatedItems :=
      state.items.filter (fun item => !(jsStrictEq item.product.id productId))
    { state with
      items := updatedItems
      totalItems := state.totalItems - itemToRemove.quantity
      totalPrice := state.totalPrice - itemToRemove.total_price }

/-- `cartReducer` from `CartContext.tsx`, case by case. -/
def cartReducer (state : CartState) (action : CartAction) : CartState :=
  match action with
  | .addItem product quantity now =>
    match state.items.find? (fun item => item.product.id == product.id) with
    | some _existingItem =>
      let updatedItems := state.items.map (addItemUpdate product quantity)
      { state with
        items := updatedItems
        totalItems := state.totalItems + quantity
        totalPrice := sumTotalPrices updatedItems }
    | none =>
      let newItem := newCartItem product quantity now
      { state with
        items := state.items ++ [newItem]
        totalItems := state.totalItems + quantity
        totalPrice := state.totalPrice + newItem.total_price }
  | .removeItem productId => removeItemCase state productId
  | .updateQuantity productId quantity =>
    match state.items.find? (fun item => jsStrictEq item.product.id productId) with
    | none => state
    | some _existingItem =>
      if quantity ≤ 0 then
        removeItemCase state productId
      else
        let updatedItems := state.items.map (updateQuantityUpdate productId quantity)
        { state with
          items := updatedItems
          totalItems := sumQuantities updatedItems
          totalPrice := sumTotalPrices updatedItems }
  | .clearCart => { items := [], totalItems := 0, totalPrice := 0 }

/-- The provider's `initialState`. -/
def initialState : CartState :=
  { items := [], totalItems := 0, totalPrice := 0 }

/-- Running a sequence of dispatched actions from the initial (empty) cart. -/
def runCart (actions : List CartAction) : CartState :=
  actions.foldl cartReducer initialState

/-- `getItemQuantity` from the provider: 0 when the product is absent. -/
def getItemQuantity (state : CartState) (productId : Int) : ℚ :=
  match state.items.find? (fun item => item.product.id == productId) with
  | some item => item.quantity
  | none => 0

/-! ## Summation lemmas -/

theorem sumBy_foldl (g : CartItem → ℚ) :
    ∀ (l : List CartItem) (c : ℚ),
      l.foldl (fun sum item => sum + g item) c = c + sumBy g l := by
  intro l
  induction l with
  | nil => intro c; simp [sumBy]
  | cons a l ih =>
    intro c
    simp only [List.foldl_cons, sumBy] at ih ⊢
    rw [ih (c + g a), ih (0 + g a)]
    ring

theorem sumBy_nil (g : CartItem → ℚ) : sumBy g [] = 0 := rfl

theorem sumBy_cons (g : CartItem → ℚ) (a : CartItem) (l : List CartItem) :
    sumBy g (a :: l) = g a + sumBy g l := by
  show l.foldl (fun sum item => sum + g item) (0 + g a) = g a + sumBy g l
  rw [sumBy_foldl]
  ring

theorem sumBy_append_singleton (g : CartItem → ℚ) (l : List CartItem) (a : CartItem) :
    sumBy g (l ++ [a]) = sumBy g l + g a := by
  show (l ++ [a]).foldl (fun sum item => sum + g item) 0 = sumBy g l + g a
  rw [List.foldl_append]
  rfl

theorem sumBy_eq_sum_map (g : CartItem → ℚ) (l : List CartItem) :
    sumBy g l = (l.map g).sum := by
  induction l with
  | nil => simp [sumBy]
  | cons a l ih => rw [sumBy_cons, List.map_cons, List.sum_cons, ih]

/-! ## Key-uniqueness lemmas

`DistinctProductIds` is the auxiliary invariant: no two line items of a cart
share a `product.id`.  The lemmas below compute the effect of the reducer's
`map`/`filter` passes on sums under that invariant. -/

/-- No two line items share a `product.id`. -/
def DistinctProductIds (items : List CartItem) : Prop :=
  items.Pairwise (fun a b => a.product.id ≠ b.product.id)

theorem jsStrictEq_key (v : JSValue) (a b : CartItem)
    (ha : jsStrictEq a.product.id v = true) (hb : jsStrictEq b.product.id v = true) :
    a.product.id = b.product.id := by
  cases v with
  | num m =>
    simp only [jsStrictEq, beq_iff_eq] at ha hb
    rw [ha, hb]
  | str s => simp [jsStrictEq] at ha

theorem beq_id_key (p : Product) (a b : CartItem)
    (ha : (a.product.id == p.id) = true) (hb : (b.product.id == p.id) = true) :
    a.product.id = b.product.id := by
  simp only [beq_iff_eq] at ha hb
  rw [ha, hb]

theorem sumBy_map_of_find (g : CartItem → ℚ) (P : CartItem → Bool) (f : CartItem → CartItem)
    (hf : ∀ i, P i = false → f i = i)
    (hkey : ∀ a b, P a = true → P b = true → a.product.id = b.product.id) :
    ∀ (l : List CartItem) (x : CartItem), l.find? P = some x →
      DistinctProductIds l →
      sumBy g (l.map f) = sumBy g l + (g (f x) - g x) := by
  intro l
  induction l with
  | nil => intro x hx _; simp at hx
  | cons a l ih =>
    intro x hx hp
    rw [DistinctProductIds, List.pairwise_cons] at hp
    obtain ⟨ha, hl⟩ := hp
    by_cases hPa : P a = true
    · rw [List.find?_cons_of_pos _ hPa, Option.some.injEq] at hx
      subst hx
      have hrest : ∀ b ∈ l, P b = false := by
        intro b hb
        by_contra hb'
        have hbt : P b = true := by
          cases h : P b
          · exact absurd h hb'
          · rfl
        exact ha b hb (hkey a b hPa hbt)
      have hmap : l.map f = l := by
        have : l.map f = l.map id := List.map_congr_left (fun b hb => hf b (hrest b hb))
        simpa using this
      rw [List.map_cons, hmap, sumBy_cons, sumBy_cons]
      ring
    · have hPa' : P a = false := by
        cases h : P a
        · rfl
        · exact absurd h hPa
      rw [List.find?_cons_of_neg _ (by simp [hPa'])] at hx
      rw [List.map_cons, hf a hPa', sumBy_cons, sumBy_cons, ih x hx hl]
      ring

theorem sumBy_filter_of_find (g : CartItem → ℚ) (P : CartItem → Bool)
    (hkey : ∀ a b, P a = true → P b = true → a.product.id = b.product.id) :
    ∀ (l : List CartItem) (x : CartItem), l.find? P = some x →
      DistinctProductIds l →
      sumBy g (l.filter (fun i => !(P i))) = sumBy g l - g x := by
  intro l
  induction l with
  | nil => intro x hx _; simp at hx
  | cons a l ih =>
    intro x hx hp
    rw [DistinctProductIds, List.pairwise_cons] at hp
    obtain ⟨ha, hl⟩ := hp
    by_cases hPa : P a = true
    · rw [List.find?_cons_of_pos _ hPa, Option.some.injEq] at hx
      subst hx
      have hrest : ∀ b ∈ l, P b = false := by
        intro b hb
        by_contra hb'
        have hbt : P b = true := by
          cases h : P b
          · exact absurd h hb'
          · rfl
        exact ha b hb (hkey a b hPa hbt)
      have hfilter : l.filter (fun i => !(P i)) = l := by
        rw [List.filter_eq_self]
        intro b hb
        simp [hrest b hb]
      rw [List.filter_cons_of_neg (by simp [hPa]), hfilter, sumBy_cons]
      ring
    · have hPa' : P a = false := by
        cases h : P a
        · rfl
        · exact absurd h hPa
      rw [List.find?_cons_of_neg _ (by simp [hPa'])] at hx
      rw [List.filter_cons_of_pos (by simp [hPa']), sumBy_cons, sumBy_cons,
        ih x hx hl]
      ring

theorem filter_map_of_find (P : CartItem → Bool) (f : CartItem → CartItem)
    (hf : ∀ i, P i = false → f i = i)
    (hfP : ∀ i, P (f i) = P i)
    (hkey : ∀ a b, P a = true → P b = true → a.product.id = b.product.id) :
    ∀ (l : List CartItem) (x : CartItem), l.find? P = some x →
      DistinctProductIds l →
      (l.map f).filter P = [f x] := by
  intro l
  induction l with
  | nil => intro x hx _; simp at hx
  | cons a l ih =>
    intro x hx hp
    rw [DistinctProductIds, List.pairwise_cons] at hp
    obtain ⟨ha, hl⟩ := hp
    by_cases hPa : P a = true
    · rw [List.find?_cons_of_pos _ hPa, Option.some.injEq] at hx
      subst hx
      have hrest : ∀ b ∈ l, P b = false := by
        intro b hb
        by_contra hb'
        have hbt : P b = true := by
          cases h : P b
          · exact absurd h hb'
          · rfl
        exact ha b hb (hkey a b hPa hbt)
      have hmap : l.map f = l := by
        have : l.map f = l.map id := List.map_congr_left (fun b hb => hf b (hrest b hb))
        simpa using this
      have hnil : l.filter P = [] := by
        rw [List.filter_eq_nil_iff]
        intro b hb
        simp [hrest b hb]
      rw [List.map_cons, hmap, List.filter_cons_of_pos (by rw [hfP]; exact hPa), hnil]
    · have hPa' : P a = false := by
        cases h : P a
        · rfl
        · exact absurd h hPa
      rw [List.find?_cons_of_neg _ (by simp [hPa'])] at hx
      rw [List.map_cons, hf a hPa', List.filter_cons_of_neg (by simp [hPa']),
        ih x hx hl]

theorem distinct_map (f : CartItem → CartItem)
    (hfid : ∀ i, (f i).product.id = i.product.id) (l : List CartItem)
    (h : DistinctProductIds l) : DistinctProductIds (l.map f) :=
  List.Pairwise.map f (fun a b hab => by rw [hfid, hfid]; exact hab) h

/-! ## Reducer equation lemmas -/

theorem sumQuantities_def (l : List CartItem) :
    sumQuantities l = sumBy (fun item => item.quantity) l := rfl

theorem sumTotalPrices_def (l : List CartItem) :
    sumTotalPrices l = sumBy (fun item => item.total_price) l := rfl

theorem removeItemCase_none (s : CartState) (v : JSValue)
    (h : s.items.find? (fun item => jsStrictEq item.product.id v) = none) :
    removeItemCase s v = s := by
  unfold removeItemCase
  rw [h]

theorem removeItemCase_some (s : CartState) (v : JSValue) (x : CartItem)
    (h : s.items.find? (fun item => jsStrictEq item.product.id v) = some x) :
    removeItemCase s v =
      { s with
        items := s.items.filter (fun item => !(jsStrictEq item.product.id v))
        totalItems := s.totalItems - x.quantity
        totalPrice := s.totalPrice - x.total_price } := by
  unfold removeItemCase
  rw [h]

theorem cartReducer_addItem_some (s : CartState) (p : Product) (q : ℚ) (now : Nat)
    (x : CartItem) (h : s.items.find? (fun item => item.product.id == p.id) = some x) :
    cartReducer s (.addItem p q now) =
      { s with
        items := s.items.map (addItemUpdate p q)
        totalItems := s.totalItems + q
        totalPrice := sumTotalPrices (s.items.map (addItemUpdate p q)) } := by
  unfold cartReducer
  dsimp only
  rw [h]

theorem cartReducer_addItem_none (s : CartState) (p : Product) (q : ℚ) (now : Nat)
    (h : s.items.find? (fun item => item.product.id == p.id) = none) :
    cartReducer s (.addItem p q now) =
      { s with
        items := s.items ++ [newCartItem p q now]
        totalItems := s.totalItems + q
        totalPrice := s.totalPrice + (newCartItem p q now).total_price } := by
  unfold cartReducer
  dsimp only
  rw [h]

theorem cartReducer_removeItem (s : CartState) (v : JSValue) :
    cartReducer s (.removeItem v) = removeItemCase s v := rfl

theorem cartReducer_updateQuantity_none (s : CartState) (v : JSValue) (q : ℚ)
    (h : s.items.find? (fun item => jsStrictEq item.product.id v) = none) :
    cartReducer s (.updateQuantity v q) = s := by
  unfold cartReducer
  dsimp only
  rw [h]

theorem cartReducer_updateQuantity_nonpos (s : CartState) (v : JSValue) (q : ℚ)
    (x : CartItem) (h : s.items.find? (fun item => jsStrictEq item.product.id v) = some x)
    (hq : q ≤ 0) :
    cartReducer s (.updateQuantity v q) = removeItemCase s v := by
  unfold cartReducer
  dsimp only
  rw [h, if_pos hq]

theorem cartReducer_updateQuantity_pos (s : CartState) (v : JSValue) (q : ℚ)
    (x : CartItem) (h : s.items.find? (fun item => jsStrictEq item.product.id v) = some x)
    (hq : ¬q ≤ 0) :
    cartReducer s (.updateQuantity v q) =
      { s with
        items := s.items.map (updateQuantityUpdate v q)
        totalItems := sumQuantities (s.items.map (updateQuantityUpdate v q))
        totalPrice := sumTotalPrices (s.items.map (updateQuantityUpdate v q)) } := by
  unfold cartReducer
  dsimp only
  rw [h, if_neg hq]

theorem cartReducer_clearCart (s : CartState) :
    cartReducer s .clearCart = { items := [], totalItems := 0, totalPrice := 0 } := rfl

/-! ## Frame facts about the per-item updates -/

theorem addItemUpdate_of_ne (p : Product) (q : ℚ) (i : CartItem)
    (h : (i.product.id == p.id) = false) : addItemUpdate p q i = i := by
  simp [addItemUpdate, h]

theorem addItemUpdate_of_eq (p : Product) (q : ℚ) (i : CartItem)
    (h : (i.product.id == p.id) = true) :
    addItemUpdate p q i =
      { i with
        quantity := i.quantity + q
        total_price := (i.quantity + q) * i.unit_price } := by
  simp [addItemUpdate, h]

theorem addItemUpdate_frame (p : Product) (q : ℚ) (i : CartItem) :
    (addItemUpdate p q i).id = i.id ∧
    (addItemUpdate p q i).product = i.product ∧
    (addItemUpdate p q i).unit_price = i.unit_price ∧
    (addItemUpdate p q i).added_at = i.added_at := by
  unfold addItemUpdate
  split <;> exact ⟨rfl, rfl, rfl, rfl⟩

theorem addItemUpdate_key (p : Product) (q : ℚ) (i : CartItem) :
    ((addItemUpdate p q i).product.id == p.id) = (i.product.id == p.id) := by
  rw [(addItemUpdate_frame p q i).2.1]

theorem updateQuantityUpdate_of_ne (v : JSValue) (q : ℚ) (i : CartItem)
    (h : jsStrictEq i.product.id v = false) : updateQuantityUpdate v q i = i := by
  simp [updateQuantityUpdate, h]

theorem updateQuantityUpdate_frame (v : JSValue) (q : ℚ) (i : CartItem) :
    (updateQuantityUpdate v q i).id = i.id ∧
    (updateQuantityUpdate v q i).product = i.product ∧
    (updateQuantityUpdate v q i).unit_price = i.unit_price ∧
    (updateQuantityUpdate v q i).added_at = i.added_at := by
  unfold updateQuantityUpdate
  split <;> exact ⟨rfl, rfl, rfl, rfl⟩

/-! ## The cart store invariant and its preservation -/

/-- Invariant: cached aggregate totals are recomputable from the line items,
and line items have pairwise-distinct product ids. -/
def CartInv (s : CartState) : Prop :=
  s.totalItems = sumQuantities s.items ∧
  s.totalPrice = sumTotalPrices s.items ∧
  DistinctProductIds s.items

theorem cartInv_initialState : CartInv initialState :=
  ⟨rfl, rfl, List.Pairwise.nil⟩

theorem cartInv_removeItemCase (s : CartState) (v : JSValue) (h : CartInv s) :
    CartInv (removeItemCase s v) := by
  obtain ⟨hQ, hP, hD⟩ := h
  cases hfind : s.items.find? (fun item => jsStrictEq item.product.id v) with
  | none =>
    rw [removeItemCase_none s v hfind]
    exact ⟨hQ, hP, hD⟩
  | some x =>
    rw [removeItemCase_some s v x hfind]
    unfold CartInv
    refine ⟨?_, ?_, ?_⟩
    · show s.totalItems - x.quantity =
        sumQuantities (s.items.filter (fun item => !(jsStrictEq item.product.id v)))

      rw [sumQuantities_def,
        sumBy_filter_of_find (fun item => item.quantity)
          (fun item => jsStrictEq item.product.id v) (jsStrictEq_key v) s.items x hfind hD,
        hQ, sumQuantities_def]
    · show s.totalPrice - x.total_price =
        sumTotalPrices (s.items.filter (fun item => !(jsStrictEq item.product.id v)))
      rw [sumTotalPrices_def,
        sumBy_filter_of_find (fun item => item.total_price)
          (fun item => jsStrictEq item.product.id v) (jsStrictEq_key v) s.items x hfind hD,
        hP, sumTotalPrices_def]
    · exact hD.filter _

theorem cartInv_step (s : CartState) (a : CartAction) (h : CartInv s) :
    CartInv (cartReducer s a) := by
  obtain ⟨hQ, hP, hD⟩ := h
  cases a with
  | addItem p q now =>
    cases hfind : s.items.find? (fun item => item.product.id == p.id) with
    | some x =>
      rw [cartReducer_addItem_some s p q now x hfind]
      unfold CartInv
      refine ⟨?_, rfl, ?_⟩
      · show s.totalItems + q = sumQuantities (s.items.map (addItemUpdate p q))
        have hfx : (x.product.id == p.id) = true := by simpa using List.find?_some hfind
        rw [sumQuantities_def,
          sumBy_map_of_find (fun item => item.quantity)
            (fun item => item.product.id == p.id) (addItemUpdate p q)
            (fun i hi => addItemUpdate_of_ne p q i hi) (beq_id_key p)
            s.items x hfind hD,
          addItemUpdate_of_eq p q x hfx, hQ, sumQuantities_def]
        show sumBy (fun item => item.quantity) s.items + q =
          sumBy (fun item => item.quantity) s.items + (x.quantity + q - x.quantity)
        ring
      · exact distinct_map (addItemUpdate p q)
          (fun i => by rw [(addItemUpdate_frame p q i).2.1]) s.items hD
    | none =>
      rw [cartReducer_addItem_none s p q now hfind]
      unfold CartInv
      refine ⟨?_, ?_, ?_⟩
      · show s.totalItems + q = sumQuantities (s.items ++ [newCartItem p q now])
        rw [sumQuantities_def, sumBy_append_singleton, hQ, sumQuantities_def]
        rfl
      · show s.totalPrice + (newCartItem p q now).total_price =
          sumTotalPrices (s.items ++ [newCartItem p q now])
        rw [sumTotalPrices_def, sumBy_append_singleton, hP, sumTotalPrices_def]
      · rw [DistinctProductIds, List.pairwise_append]
        refine ⟨hD, List.pairwise_singleton _ _, ?_⟩
        intro itm hitm y hy
        have hy' : y = newCartItem p q now := by simpa using hy
        subst hy'
        have := List.find?_eq_none.mp hfind itm hitm
        intro hcontra
        exact this (by simp [newCartItem] at hcontra ⊢; exact hcontra)
  | removeItem v => exact cartInv_removeItemCase s v ⟨hQ, hP, hD⟩
  | updateQuantity v q =>
    cases hfind : s.items.find? (fun item => jsStrictEq item.product.id v) with
    | none =>
      rw [cartReducer_updateQuantity_none s v q hfind]
      exact ⟨hQ, hP, hD⟩
    | some x =>
      by_cases hq : q ≤ 0
      · rw [cartReducer_updateQuantity_nonpos s v q x hfind hq]
        exact cartInv_removeItemCase s v ⟨hQ, hP, hD⟩
      · rw [cartReducer_updateQuantity_pos s v q x hfind hq]
        exact ⟨rfl, rfl,
          distinct_map (updateQuantityUpdate v q)
            (fun i => by rw [(updateQuantityUpdate_frame v q i).2.1]) s.items hD⟩
  | clearCart => exact ⟨rfl, rfl, List.Pairwise.nil⟩

theorem cartInv_foldl (actions : List CartAction) :
    ∀ (s : CartState), CartInv s → CartInv (actions.foldl cartReducer s) := by
  induction actions with
  | nil => intro s h; exact h
  | cons a actions ih =>
    intro s h
    exact ih (cartReducer s a) (cartInv_step s a h)

theorem cartInv_runCart (actions : List CartAction) : CartInv (runCart actions) :=
  cartInv_foldl actions initialState cartInv_initialState

/-! ## CartItem component handlers (`CartItem.tsx`)

The component's default handlers (used when no `onRemove`/`onUpdateQuantity`
prop is supplied) dispatch with `item.id` — the line item's *string* id —
where the reducer expects the numeric `product.id`. -/

/-- `handleRemove` of `CartItem.tsx` in its default branch:
`removeItem(item.id)`. -/
def cartItemHandleRemove (item : CartItem) (state : CartState) : CartState :=
  cartReducer state (.removeItem (.str item.id))

/-- `handleQuantityChange` of `CartItem.tsx` in its default branch: guards on
negative and over-stock quantities, then `updateQuantity(item.id, newQuantity)`. -/
def cartItemHandleQuantityChange (item : CartItem) (newQuantity : ℚ)
    (state : CartState) : CartState :=
  if newQuantity < 0 then state
  else if newQuantity > item.product.available_quantity then state
  else cartReducer state (.updateQuantity (.str item.id) newQuantity)

/-! ## Checkout page (`CheckoutPage.tsx`) -/

/-- `ShippingAddress` from `types/index.ts`; `BillingAddress` extends it with
no extra fields.  Optional fields are initialised to `''` by the page, so all
fields are plain strings here. -/
structure ShippingAddress where
  first_name : String
  last_name : String
  company : String
  street_address : String
  apartment : String
  city : String
  state : String
  postal_code : String
  country : String
  phone : String
  deriving Repr, DecidableEq

/-- `BillingAddress extends ShippingAddress {}`. -/
abbrev BillingAddress := ShippingAddress

/-- The fields an address form edit can target (the `field` argument of
`handleShippingChange`/`handleBillingChange`). -/
inductive AddressField where
  | first_name
  | last_name
  | company
  | street_address
  | apartment
  | city
  | state
  | postal_code
  | country
  | phone
  deriving Repr, DecidableEq

/-- `{ ...prev, [field]: value }`. -/
def setAddressField (a : ShippingAddress) (f : AddressField) (v : String) :
    ShippingAddress :=
  match f with
  | .first_name => { a with first_name := v }
  | .last_name => { a with last_name := v }
  | .company => { a with company := v }
  | .street_address => { a with street_address := v }
  | .apartment => { a with apartment := v }
  | .city => { a with city := v }
  | .state => { a with state := v }
  | .postal_code => { a with postal_code := v }
  | .country => { a with country := v }
  | .phone => { a with phone := v }

/-- `'credit_card' | 'paypal'`. -/
inductive PaymentMethod where
  | credit_card
  | paypal
  deriving Repr, DecidableEq

/-- `OrderCalculation` from `types/index.ts`. -/
structure OrderCalculation where
  subtotal : ℚ
  tax_amount : ℚ
  shipping_cost : ℚ
  total_amount : ℚ
  currency : String
  deriving Repr, DecidableEq

/-- The checkout page's component state: step counter, both addresses, the
"same as shipping" flag, payment method, notes and the processing flag. -/
structure CheckoutState where
  currentStep : Nat
  shippingAddress : ShippingAddress
  billingAddress : BillingAddress
  useSameAddress : Bool
  paymentMethod : PaymentMethod
  orderNotes : String
  isProcessing : Bool
  deriving Repr, DecidableEq

/-- `CheckoutRequest` from `types/index.ts`: the payload shape sent to both
`ordersApi.calculateOrder` and `ordersApi.createOrder`. -/
structure CheckoutRequest where
  shipping_address : ShippingAddress
  billing_address : BillingAddress
  payment_method : PaymentMethod
  notes : String
  deriving Repr, DecidableEq

/-- The `checkoutData` object built (identically) inside `calculateTotals` and
`handlePlaceOrder`:
`billing_address: useSameAddress ? shippingAddress : billingAddress`. -/
def checkoutData (s : CheckoutState) : CheckoutRequest :=
  { shipping_address := s.shippingAddress
    billing_address := if s.useSameAddress then s.shippingAddress else s.billingAddress
    payment_method := s.paymentMethod
    notes := s.orderNotes }

/-- `handleShippingChange(field, value)`. -/
def handleShippingChange (field : AddressField) (value : String)
    (s : CheckoutState) : CheckoutState :=
  { s with shippingAddress := setAddressField s.shippingAddress field value }

/-- `handleBillingChange(field, value)`. -/
def handleBillingChange (field : AddressField) (value : String)
    (s : CheckoutState) : CheckoutState :=
  { s with billingAddress := setAddressField s.billingAddress field value }

/-- `handleUseSameAddressChange(checked)`: sets the flag, and when the flag is
being set it copies the *current* shipping address into the billing-address
state (a one-time copy). -/
def handleUseSameAddressChange (checked : Bool) (s : CheckoutState) : CheckoutState :=
  if checked then
    { s with useSameAddress := checked, billingAddress := s.shippingAddress }
  else
    { s with useSameAddress := checked }

/-- `handleNextStep`. -/
def handleNextStep (s : CheckoutState) : CheckoutState :=
  if s.currentStep < 3 then { s with currentStep := s.currentStep + 1 } else s

/-- `handlePreviousStep`. -/
def handlePreviousStep (s : CheckoutState) : CheckoutState :=
  if s.currentStep > 1 then { s with currentStep := s.currentStep - 1 } else s

/-- The network outcome of the single `ordersApi.createOrder` call awaited by
`handlePlaceOrder`. -/
inductive CreateOrderResult where
  | ok (orderData : String)
  | err (message : String)
  deriving Repr, DecidableEq

/-- The observable outcome of one `handlePlaceOrder` run: the final component
state, the final cart state, whether the failure alert was shown, how many
`createOrder` requests were issued, and the payload each request carried. -/
structure PlaceOrderOutcome where
  checkout : CheckoutState
  cart : CartState
  errorAlertShown : Bool
  createOrderCalls : Nat
  payload : CheckoutRequest
  deriving Repr, DecidableEq

/-- `handlePlaceOrder`: sets the processing flag, issues exactly one
`createOrder(checkoutData)` call, and on success clears the cart
(`clearCart()`) and moves to step 4; on failure shows the alert and leaves
everything else untouched.  The `finally` block clears the processing flag on
both paths. -/
def handlePlaceOrder (s : CheckoutState) (cart : CartState)
    (result : CreateOrderResult) : PlaceOrderOutcome :=
  match result with
  | .ok _orderData =>
    { checkout := { s with currentStep := 4, isProcessing := false }
      cart := cartReducer cart .clearCart
      errorAlertShown := false
      createOrderCalls := 1
      payload := checkoutData s }
  | .err _message =>
    { checkout := { s with isProcessing := false }
      cart := cart
      errorAlertShown := true
      createOrderCalls := 1
      payload := checkoutData s }

/-- The client-side fallback branch of `calculateTotals` (the `catch` path when
`ordersApi.calculateOrder` fails), computed from the cart's `totalPrice`. -/
def calculateTotalsFallback (totalPrice : ℚ) : OrderCalculation :=
  let subtotal := totalPrice
  let taxRate : ℚ := 8 / 100
  let taxAmount := subtotal * taxRate
  let shippingCost : ℚ := if subtotal > 100 then 0 else 15
  let totalAmount := subtotal + taxAmount + shippingCost
  { subtotal := subtotal
    tax_amount := taxAmount
    shipping_cost := shippingCost
    total_amount := totalAmount
    currency := "USD" }

/-! ## Concrete fixtures for witnesses and counterexamples -/

/-- A sample catalog product. -/
def prodA : Product :=
  { id := 1, name := "Almonds", price_per_unit := 10, unit := "kg",
    available_quantity := 100 }

/-- The same product id with a different catalog price (a later price change). -/
def prodAltPrice : Product := { prodA with price_per_unit := 999 }

/-- A cart holding 2 units of `prodA` (added at timestamp 11). -/
def cartA : CartState := runCart [CartAction.addItem prodA 2 11]

/-- The line item created by that add. -/
def itemA : CartItem := newCartItem prodA 2 11

/-- A sample shipping address. -/
def addrA : ShippingAddress :=
  { first_name := "Ada", last_name := "Lovelace", company := "",
    street_address := "1 Main St", apartment := "", city := "Springfield",
    state := "IL", postal_code := "62701", country := "US", phone := "" }

/-- A distinct sample billing address. -/
def addrB : ShippingAddress :=
  { first_name := "Bob", last_name := "Byrne", company := "",
    street_address := "2 Oak Ave", apartment := "", city := "Portland",
    state := "OR", postal_code := "97201", country := "US", phone := "" }

/-- A checkout session on the Payment step with distinct addresses and the
flag not yet set. -/
def checkoutStart : CheckoutState :=
  { currentStep := 2, shippingAddress := addrA, billingAddress := addrB,
    useSameAddress := false, paymentMethod := .credit_card, orderNotes := "",
    isProcessing := false }

/-- A checkout session on the Review step (step 3). -/
def checkoutReview : CheckoutState :=
  { currentStep := 3, shippingAddress := addrA, billingAddress := addrA,
    useSameAddress := true, paymentMethod := .credit_card, orderNotes := "",
    isProcessing := false }

/-! ## The claims -/

/-- C1: starting from the empty cart, after every sequence of `addItem`,
`updateQuantity`, `removeItem` and `clearCart` dispatches, the cart's
`totalItems` equals the sum of its line items' quantities and `totalPrice`
equals the sum of their `total_price` values. -/
theorem claim_c1_cart_totals_consistent (actions : List CartAction) :
    (runCart actions).totalItems =
      ((runCart actions).items.map (fun item => item.quantity)).sum ∧
    (runCart actions).totalPrice =
      ((runCart actions).items.map (fun item => item.total_price)).sum := by
  obtain ⟨hQ, hP, _⟩ := cartInv_runCart actions
  constructor
  · rw [hQ, sumQuantities_def, sumBy_eq_sum_map]
  · rw [hP, sumTotalPrices_def, sumBy_eq_sum_map]

/-- C2: on every reachable cart state that has a line item `x` for product
`p`, `addItem(p, q)` leaves exactly one line item for `p`, namely `x` with its
quantity increased by `q` (a merge, never a duplicate row). -/
theorem claim_c2_addItem_merges (actions : List CartAction) (p : Product) (q : ℚ)
    (now : Nat) (x : CartItem)
    (hx : (runCart actions).items.find? (fun item => item.product.id == p.id) = some x) :
    ((cartReducer (runCart actions) (.addItem p q now)).items.filter
        (fun item => item.product.id == p.id)) =
      [{ x with
          quantity := x.quantity + q
          total_price := (x.quantity + q) * x.unit_price }] := by
  obtain ⟨_, _, hD⟩ := cartInv_runCart actions
  rw [cartReducer_addItem_some _ p q now x hx]
  show ((runCart actions).items.map (addItemUpdate p q)).filter
      (fun item => item.product.id == p.id) = _
  have hfx : (x.product.id == p.id) = true := by simpa using List.find?_some hx
  rw [filter_map_of_find (fun item => item.product.id == p.id) (addItemUpdate p q)
      (fun i hi => addItemUpdate_of_ne p q i hi) (addItemUpdate_key p q) (beq_id_key p)
      (runCart actions).items x hx hD,
    addItemUpdate_of_eq p q x hfx]

/-- C2 witness: `addItem(prodA, 2)` then `addItem(prodA, 3)` yields exactly one
line item for `prodA`, with quantity 5. -/
theorem claim_c2_witness :
    ((cartReducer cartA (.addItem prodA 3 22)).items.filter
        (fun item => item.product.id == prodA.id)) =
      [{ itemA with quantity := 5, total_price := 50 }] := by
  have h := claim_c2_addItem_merges [CartAction.addItem prodA 2 11] prodA 3 22 itemA rfl
  show ((cartReducer (runCart [CartAction.addItem prodA 2 11])
      (CartAction.addItem prodA 3 22)).items.filter
        (fun item => item.product.id == prodA.id)) = _
  rw [h]
  norm_num [itemA, newCartItem, prodA]

/-- C3: the client-side fallback order calculation: subtotal is the cart's
total price, tax is 8% of the subtotal, shipping is 0 for subtotal > 100 and
15 otherwise (in particular at 100.01 and 99.99), and the total is exactly
subtotal + tax + shipping. -/
theorem claim_c3_fallback_calculation (cart : CartState) :
    (calculateTotalsFallback cart.totalPrice).subtotal = cart.totalPrice ∧
    (calculateTotalsFallback cart.totalPrice).tax_amount =
      8 / 100 * (calculateTotalsFallback cart.totalPrice).subtotal ∧
    ((calculateTotalsFallback cart.totalPrice).subtotal > 100 →
      (calculateTotalsFallback cart.totalPrice).shipping_cost = 0) ∧
    ((calculateTotalsFallback cart.totalPrice).subtotal ≤ 100 →
      (calculateTotalsFallback cart.totalPrice).shipping_cost = 15) ∧
    (calculateTotalsFallback cart.totalPrice).total_amount =
      (calculateTotalsFallback cart.totalPrice).subtotal +
        (calculateTotalsFallback cart.totalPrice).tax_amount +
        (calculateTotalsFallback cart.totalPrice).shipping_cost ∧
    (calculateTotalsFallback (10001 / 100)).shipping_cost = 0 ∧
    (calculateTotalsFallback (9999 / 100)).shipping_cost = 15 := by
  refine ⟨rfl, ?_, ?_, ?_, rfl, ?_, ?_⟩
  · show cart.totalPrice * (8 / 100) = 8 / 100 * cart.totalPrice
    ring
  · intro h
    have h' : cart.totalPrice > 100 := h
    show (if cart.totalPrice > 100 then (0 : ℚ) else 15) = 0
    rw [if_pos h']
  · intro h
    have h' : cart.totalPrice ≤ 100 := h
    show (if cart.totalPrice > 100 then (0 : ℚ) else 15) = 15
    rw [if_neg (not_lt.mpr h')]
  · show (if (10001 / 100 : ℚ) > 100 then (0 : ℚ) else 15) = 0
    rw [if_pos (by norm_num)]
  · show (if (9999 / 100 : ℚ) > 100 then (0 : ℚ) else 15) = 15
    rw [if_neg (by norm_num)]

/-- C3 witness: at a cart with total price 99.99 the fallback charges the flat
15.00 shipping fee. -/
theorem claim_c3_witness :
    (calculateTotalsFallback (CartState.mk [] 0 (9999 / 100)).totalPrice).shipping_cost = 15 :=
  (claim_c3_fallback_calculation (CartState.mk [] 0 (9999 / 100))).2.2.2.1
    (by show (9999 / 100 : ℚ) ≤ 100; norm_num)

/-- C4: for every cart state, product id payload and quantity q ≤ 0,
`updateQuantity(pid, q)` returns exactly the state `removeItem(pid)` returns,
and after `updateQuantity(pid, 0)` no line item matches `pid`. -/
theorem claim_c4_updateQuantity_nonpos_removes (s : CartState) (pid : JSValue)
    (q : ℚ) (hq : q ≤ 0) :
    cartReducer s (.updateQuantity pid q) = cartReducer s (.removeItem pid) ∧
    ∀ item ∈ (cartReducer s (.updateQuantity pid 0)).items,
      jsStrictEq item.product.id pid = false := by
  have key : ∀ (q' : ℚ), q' ≤ 0 →
      cartReducer s (.updateQuantity pid q') = cartReducer s (.removeItem pid) := by
    intro q' hq'
    cases hfind : s.items.find? (fun item => jsStrictEq item.product.id pid) with
    | none =>
      rw [cartReducer_updateQuantity_none s pid q' hfind, cartReducer_removeItem,
        removeItemCase_none s pid hfind]
    | some x =>
      rw [cartReducer_updateQuantity_nonpos s pid q' x hfind hq', cartReducer_removeItem]
  refine ⟨key q hq, ?_⟩
  rw [key 0 le_rfl, cartReducer_removeItem]
  cases hfind : s.items.find? (fun item => jsStrictEq item.product.id pid) with
  | none =>
    rw [removeItemCase_none s pid hfind]
    intro item hmem
    have := List.find?_eq_none.mp hfind item hmem
    simpa using this
  | some x =>
    rw [removeItemCase_some s pid x hfind]
    intro item hmem
    have hmem' : item ∈ s.items.filter (fun item => !(jsStrictEq item.product.id pid)) := hmem
    have := (List.mem_filter.mp hmem').2
    simpa using this

/-- C4 witness: on the one-item cart, `updateQuantity(1, 0)` and
`removeItem(1)` produce the same state. -/
theorem claim_c4_witness :
    cartReducer cartA (.updateQuantity (.num 1) 0) = cartReducer cartA (.removeItem (.num 1)) :=
  (claim_c4_updateQuantity_nonpos_removes cartA (.num 1) 0 le_rfl).1

/-- C5: when a line item for `p.id` exists, `addItem` leaves every line item's
`unit_price` unchanged (even if the added product record carries a different
price), and `updateQuantity` with a positive quantity changes no line item's
id, product, `unit_price` or `added_at`. -/
theorem claim_c5_unit_price_immutable (s : CartState) (p : Product) (q : ℚ) (now : Nat)
    (hex : (s.items.find? (fun item => item.product.id == p.id)).isSome = true) :
    (cartReducer s (.addItem p q now)).items.map (fun item => item.unit_price) =
      s.items.map (fun item => item.unit_price) ∧
    ∀ (pid : JSValue) (q2 : ℚ), 0 < q2 →
      (cartReducer s (.updateQuantity pid q2)).items.map (fun item => item.unit_price) =
          s.items.map (fun item => item.unit_price) ∧
        (cartReducer s (.updateQuantity pid q2)).items.map
            (fun item => (item.id, item.product, item.unit_price, item.added_at)) =
          s.items.map (fun item => (item.id, item.product, item.unit_price, item.added_at)) := by
  constructor
  · obtain ⟨x, hx⟩ := Option.isSome_iff_exists.mp hex
    rw [cartReducer_addItem_some s p q now x hx]
    show (s.items.map (addItemUpdate p q)).map (fun item => item.unit_price) =
      s.items.map (fun item => item.unit_price)
    rw [List.map_map]
    apply List.map_congr_left
    intro i _
    show (addItemUpdate p q i).unit_price = i.unit_price
    exact (addItemUpdate_frame p q i).2.2.1
  · intro pid q2 hq2
    cases hfind : s.items.find? (fun item => jsStrictEq item.product.id pid) with
    | none =>
      rw [cartReducer_updateQuantity_none s pid q2 hfind]
      exact ⟨rfl, rfl⟩
    | some x =>
      rw [cartReducer_updateQuantity_pos s pid q2 x hfind (not_le.mpr hq2)]
      constructor
      · show (s.items.map (updateQuantityUpdate pid q2)).map (fun item => item.unit_price) =
          s.items.map (fun item => item.unit_price)
        rw [List.map_map]
        apply List.map_congr_left
        intro i _
        show (updateQuantityUpdate pid q2 i).unit_price = i.unit_price
        exact (updateQuantityUpdate_frame pid q2 i).2.2.1
      · show (s.items.map (updateQuantityUpdate pid q2)).map
            (fun item => (item.id, item.product, item.unit_price, item.added_at)) =
          s.items.map (fun item => (item.id, item.product, item.unit_price, item.added_at))
        rw [List.map_map]
        apply List.map_congr_left
        intro i _
        show ((updateQuantityUpdate pid q2 i).id, (updateQuantityUpdate pid q2 i).product,
            (updateQuantityUpdate pid q2 i).unit_price, (updateQuantityUpdate pid q2 i).added_at) =
          (i.id, i.product, i.unit_price, i.added_at)
        obtain ⟨h1, h2, h3, h4⟩ := updateQuantityUpdate_frame pid q2 i
        rw [h1, h2, h3, h4]

/-- C5 witness: adding the same product again with a different catalog price
leaves the stored unit prices untouched. -/
theorem claim_c5_witness :
    (cartReducer cartA (.addItem prodAltPrice 5 99)).items.map (fun item => item.unit_price) =
      cartA.items.map (fun item => item.unit_price) :=
  (claim_c5_unit_price_immutable cartA prodAltPrice 5 99 rfl).1

/-- C6 counterexample: set the "same as shipping" flag (taking the copy), then
edit the shipping city; the payload's billing address is NOT the copy taken at
flag-set time — it is the edited shipping address. -/
theorem claim_c6_counterexample :
    (checkoutData (handleShippingChange .city "Chicago"
        (handleUseSameAddressChange true checkoutStart))).billing_address ≠
      (handleUseSameAddressChange true checkoutStart).billingAddress := by
  decide

/-- C6 (amended): setting the flag copies the current shipping address into
the billing-address state once, and later shipping edits do not update that
stored copy; but while the flag stays set, the calculate-order and
create-order payloads carry the *current* (edited) shipping address as the
billing address, not the flag-set-time copy. -/
theorem claim_c6_amended (s : CheckoutState) (field : AddressField) (value : String)
    (cart : CartState) (result : CreateOrderResult) :
    (handleUseSameAddressChange true s).billingAddress = s.shippingAddress ∧
    (handleShippingChange field value (handleUseSameAddressChange true s)).billingAddress =
      s.shippingAddress ∧
    (handleShippingChange field value (handleUseSameAddressChange true s)).useSameAddress = true ∧
    (checkoutData (handleShippingChange field value
        (handleUseSameAddressChange true s))).billing_address =
      (handleShippingChange field value (handleUseSameAddressChange true s)).shippingAddress ∧
    (handlePlaceOrder (handleShippingChange field value (handleUseSameAddressChange true s))
        cart result).payload.billing_address =
      (handleShippingChange field value (handleUseSameAddressChange true s)).shippingAddress := by
  refine ⟨rfl, rfl, rfl, rfl, ?_⟩
  cases result <;> rfl

/-- C7: when `createOrder` fails, the checkout stays on the Review step (3),
the processing flag is cleared, the cart is unchanged, the error alert is
shown, and exactly one request was issued (no automatic retry). -/
theorem claim_c7_submission_failure (s : CheckoutState) (cart : CartState) (msg : String)
    (hstep : s.currentStep = 3) :
    (handlePlaceOrder s cart (.err msg)).checkout.currentStep = 3 ∧
    (handlePlaceOrder s cart (.err msg)).checkout.isProcessing = false ∧
    (handlePlaceOrder s cart (.err msg)).cart = cart ∧
    (handlePlaceOrder s cart (.err msg)).errorAlertShown = true ∧
    (handlePlaceOrder s cart (.err msg)).createOrderCalls = 1 :=
  ⟨hstep, rfl, rfl, rfl, rfl⟩

/-- C7 witness: a failing submission from the Review step leaves everything in
place. -/
theorem claim_c7_witness :
    (handlePlaceOrder checkoutReview cartA (.err "network down")).checkout.currentStep = 3 ∧
    (handlePlaceOrder checkoutReview cartA (.err "network down")).checkout.isProcessing = false ∧
    (handlePlaceOrder checkoutReview cartA (.err "network down")).cart = cartA ∧
    (handlePlaceOrder checkoutReview cartA (.err "network down")).errorAlertShown = true ∧
    (handlePlaceOrder checkoutReview cartA (.err "network down")).createOrderCalls = 1 :=
  claim_c7_submission_failure checkoutReview cartA "network down" rfl

/-- C8: a successful submission moves the checkout to Confirmed (step 4) and
clears the cart; and from any step ≤ 3 neither a failed submission nor the
Next/Previous navigation handlers can reach step 4 — only success enters
Confirmed. -/
theorem claim_c8_confirmed_only_on_success (s : CheckoutState) (cart : CartState)
    (orderData msg : String) :
    (handlePlaceOrder s cart (.ok orderData)).checkout.currentStep = 4 ∧
    (handlePlaceOrder s cart (.ok orderData)).cart.items = [] ∧
    (handlePlaceOrder s cart (.ok orderData)).cart.totalItems = 0 ∧
    (s.currentStep ≤ 3 →
      (handlePlaceOrder s cart (.err msg)).checkout.currentStep ≠ 4 ∧
      (handleNextStep s).currentStep ≠ 4 ∧
      (handlePreviousStep s).currentStep ≠ 4) := by
  refine ⟨rfl, rfl, rfl, ?_⟩
  intro hstep
  refine ⟨?_, ?_, ?_⟩
  · show s.currentStep ≠ 4
    omega
  · unfold handleNextStep
    by_cases h : s.currentStep < 3
    · rw [if_pos h]
      show s.currentStep + 1 ≠ 4
      omega
    · rw [if_neg h]
      show s.currentStep ≠ 4
      omega
  · unfold handlePreviousStep
    by_cases h : s.currentStep > 1
    · rw [if_pos h]
      show s.currentStep - 1 ≠ 4
      omega
    · rw [if_neg h]
      show s.currentStep ≠ 4
      omega

/-- C8 witness: from the Review step, success confirms and empties the cart
while failure does not reach step 4. -/
theorem claim_c8_witness :
    (handlePlaceOrder checkoutReview cartA (.ok "order-1")).checkout.currentStep = 4 ∧
    (handlePlaceOrder checkoutReview cartA (.ok "order-1")).cart.items = [] ∧
    (handlePlaceOrder checkoutReview cartA (.ok "order-1")).cart.totalItems = 0 ∧
    (handlePlaceOrder checkoutReview cartA (.err "boom")).checkout.currentStep ≠ 4 := by
  have h := claim_c8_confirmed_only_on_success checkoutReview cartA "order-1" "boom"
  exact ⟨h.1, h.2.1, h.2.2.1, (h.2.2.2 (by decide)).1⟩

/-- C9: the CartItem component's default handlers dispatch with the line
item's string id; such an id strictly-equals no numeric `product.id`, so both
handlers always return the cart state unchanged. -/
theorem claim_c9_cartItem_handlers_noop (item : CartItem) (s : CartState) (q : ℚ) :
    cartItemHandleRemove item s = s ∧
    cartItemHandleQuantityChange item q s = s ∧
    ∀ it ∈ s.items, jsStrictEq it.product.id (.str item.id) = false := by
  have hnone : s.items.find? (fun it => jsStrictEq it.product.id (.str item.id)) = none := by
    rw [List.find?_eq_none]
    intro it _
    simp [jsStrictEq]
  refine ⟨?_, ?_, ?_⟩
  · show cartReducer s (.removeItem (.str item.id)) = s
    rw [cartReducer_removeItem, removeItemCase_none s _ hnone]
  · unfold cartItemHandleQuantityChange
    by_cases h1 : q < 0
    · rw [if_pos h1]
    · rw [if_neg h1]
      by_cases h2 : q > item.product.available_quantity
      · rw [if_pos h2]
      · rw [if_neg h2]
        exact cartReducer_updateQuantity_none s _ q hnone
  · intro it _
    simp [jsStrictEq]

/-- C9 witness: the default remove handler on the one-item cart leaves the
cart unchanged. -/
theorem claim_c9_witness :
    cartItemHandleRemove itemA cartA = cartA :=
  (claim_c9_cartItem_handlers_noop itemA cartA 3).1

/-- C10: `addItem` has no quantity ≥ 1 guard: on a cart without the product,
any quantity q — zero or negative included — creates a line item with exactly
that quantity and adds q to `totalItems`. -/
theorem claim_c10_no_quantity_guard (s : CartState) (p : Product) (q : ℚ) (now : Nat)
    (habs : s.items.find? (fun item => item.product.id == p.id) = none) :
    (cartReducer s (.addItem p q now)).items = s.items ++ [newCartItem p q now] ∧
    (newCartItem p q now).quantity = q ∧
    (cartReducer s (.addItem p q now)).totalItems = s.totalItems + q := by
  rw [cartReducer_addItem_none s p q now habs]
  exact ⟨rfl, rfl, rfl⟩

/-- C10 witness: adding quantity −3 to the empty cart creates a line item with
the negative quantity −3. -/
theorem claim_c10_witness :
    (cartReducer initialState (.addItem prodA (-3) 7)).items = [newCartItem prodA (-3) 7] ∧
    (newCartItem prodA (-3) 7).quantity = -3 ∧
    (newCartItem prodA (-3) 7).quantity < 0 ∧
    (cartReducer initialState (.addItem prodA (-3) 7)).totalItems = 0 + (-3) := by
  have h := claim_c10_no_quantity_guard initialState prodA (-3) 7 rfl
  exact ⟨h.1, h.2.1, by norm_num [newCartItem], h.2.2⟩

end BulkFoodHub
